import Mathlib

/-!
Shallow embedding of `tianshou/policy/modelfree/discrete_sac.py`
(class `DiscreteSACPolicy`, methods `_target_q` and `learn`).

Modelling conventions:
* Tensors over a batch of size `n` with `A` discrete actions become functions
  `Fin n → ℚ` and `Fin n → Fin A → ℚ`; scalars become `ℚ`.
* The neural networks (actor, two critics, their target copies) are external
  collaborators; they enter the model as their forward functions
  `Obs → Fin A → ℚ`.
* `torch.distributions.Categorical` is external; its `probs` and `entropy`
  are abstract functions of the logits, fields `probsVal` / `entropyVal` of
  `Ext`.  `exp` on the learnable `log_alpha` is the abstract field `qexp`.
* Autograd is modelled at the level of the `requires_grad` flag: a tracked
  value `TV` is a rational payload plus a Boolean `rg`; applying a live
  module yields `rg := true`, a `torch.no_grad()` block or `.detach()`
  yields `rg := false`, and arithmetic propagates the flag by disjunction.
* The optimizer step on `log_alpha` (spec 4.5: one gradient step in
  log-space) is modelled as `logAlpha - lr * grad`, where `grad` is the
  derivative of the (linear-in-`log_alpha`) alpha loss; the network
  optimizers and Polyak averaging mutate external parameters only, so they
  are recorded as events in an execution trace.
-/

namespace DiscreteSAC

/-- Tracked value: a rational payload together with the autograd
`requires_grad` flag that torch propagates through arithmetic. -/
structure TV where
  val : ℚ
  rg : Bool
deriving DecidableEq

/-- The `.detach()` operation: same value, gradient tracking dropped. -/
def TV.detach (x : TV) : TV := { val := x.val, rg := false }

/-- Subtraction of tracked values; `requires_grad` propagates by `or`. -/
def TV.sub (x y : TV) : TV := { val := x.val - y.val, rg := x.rg || y.rg }

/-- Mean over a batch of size `k`, as `torch.Tensor.mean` computes it. -/
def mean (k : ℕ) (f : Fin k → ℚ) : ℚ := (∑ i, f i) / k

/-- The mutable state of a `DiscreteSACPolicy`: forward functions of the
actor, the two online critics and their frozen target copies, the entropy
coefficient `_alpha` with its `_log_alpha` / `_target_entropy` companions,
and the `_is_auto_alpha` configuration flag. -/
structure PolicyState (Obs : Type) (A : ℕ) where
  actor : Obs → Fin A → ℚ
  critic1 : Obs → Fin A → ℚ
  critic2 : Obs → Fin A → ℚ
  critic1_old : Obs → Fin A → ℚ
  critic2_old : Obs → Fin A → ℚ
  alpha : ℚ
  logAlpha : ℚ
  targetEntropy : ℚ
  isAutoAlpha : Bool

/-- A transition batch as `learn` consumes it: observations, next
observations, executed action indices, precomputed n-step `returns`, and an
optional per-transition importance `weight`. -/
structure Batch (Obs : Type) (A n : ℕ) where
  obs : Fin n → Obs
  obs_next : Fin n → Obs
  act : Fin n → Fin A
  returns : Fin n → ℚ
  weight : Option (Fin n → ℚ)

/-- A stored replay-buffer row; `_target_q` only reads its `obs_next`. -/
structure BufferRow (Obs : Type) where
  obs_next : Obs

/-- External collaborators: the categorical-distribution semantics
(`probs` and `entropy` as functions of the logits, from
`torch.distributions.Categorical`), the exponential used to derive `alpha`
from `log_alpha`, and the step size of the `log_alpha` optimizer. -/
structure Ext (A : ℕ) where
  probsVal : (Fin A → ℚ) → Fin A → ℚ
  entropyVal : (Fin A → ℚ) → ℚ
  qexp : ℚ → ℚ
  lr : ℚ

/-- Parameter-mutating calls that `learn` issues to external collaborators,
in program order: the three optimizer steps, the optional `log_alpha` step,
and the final `sync_weight` Polyak averaging. -/
inductive Event where
  | criticOneStep
  | criticTwoStep
  | actorStep
  | alphaStep
  | syncWeight
deriving DecidableEq

/-- Embedding of `DiscreteSACPolicy._target_q`: index the buffer, run the
online actor on `batch.obs_next` to build the categorical distribution, and
return `(dist.probs * min(critic1_old, critic2_old)).sum(-1)
+ alpha * dist.entropy`, one scalar per transition (the whole computation
runs under `torch.no_grad()`, so no value here tracks gradients). -/
def targetQ {Obs : Type} {A n : ℕ} (E : Ext A) (st : PolicyState Obs A)
    (buffer : ℕ → BufferRow Obs) (indice : Fin n → ℕ) : Fin n → ℚ :=
  fun i =>
    let s := (buffer (indice i)).obs_next
    let logits := st.actor s
    (∑ a, E.probsVal logits a * min (st.critic1_old s a) (st.critic2_old s a))
      + st.alpha * E.entropyVal logits

/-- Everything `DiscreteSACPolicy.learn` produces: the returned metric
mapping, the mutated batch, the trace of external parameter updates, and
the intermediate tensors the method computes (exposed so that theorems can
speak about them). -/
structure LearnOut (Obs : Type) (A n : ℕ) where
  td1 : Fin n → ℚ
  td2 : Fin n → ℚ
  critic1Loss : ℚ
  critic2Loss : ℚ
  entropyOut : Fin n → TV
  actorQ : Fin n → Fin A → TV
  actorLoss : ℚ
  alphaUsed : ℚ
  logProb : Option (Fin n → TV)
  alphaLoss : Option ℚ
  newLogAlpha : ℚ
  newAlpha : ℚ
  result : List (String × ℚ)
  batchOut : Batch Obs A n
  trace : List Event

/-- Embedding of `DiscreteSACPolicy.learn`, line for line: pop the weight
(default 1), regress each critic's gathered prediction onto
`batch.returns`, write `(td1 + td2) / 2` into `batch.weight`, compute the
actor loss from a fresh current-state distribution and the detached minimum
of the online critics, optionally run the alpha tuner on the reused
(detached) entropy, and finish with `sync_weight`. -/
def learn {Obs : Type} {A n : ℕ} (E : Ext A) (st : PolicyState Obs A)
    (batch : Batch Obs A n) : LearnOut Obs A n :=
  let weight : Fin n → ℚ := batch.weight.getD (fun _ => 1)
  let target_q : Fin n → ℚ := batch.returns
  let current_q1 : Fin n → ℚ := fun i => st.critic1 (batch.obs i) (batch.act i)
  let td1 : Fin n → ℚ := fun i => current_q1 i - target_q i
  let critic1_loss : ℚ := mean n (fun i => (td1 i) ^ 2 * weight i)
  let current_q2 : Fin n → ℚ := fun i => st.critic2 (batch.obs i) (batch.act i)
  let td2 : Fin n → ℚ := fun i => current_q2 i - target_q i
  let critic2_loss : ℚ := mean n (fun i => (td2 i) ^ 2 * weight i)
  let newWeight : Fin n → ℚ := fun i => (td1 i + td2 i) / 2
  let logits : Fin n → Fin A → ℚ := fun i => st.actor (batch.obs i)
  let entropy : Fin n → TV := fun i => { val := E.entropyVal (logits i), rg := true }
  let q : Fin n → Fin A → TV := fun i a =>
    { val := min (st.critic1 (batch.obs i) a) (st.critic2 (batch.obs i) a), rg := false }
  let actor_loss : ℚ :=
    -(mean n (fun i =>
        st.alpha * (entropy i).val + ∑ a, E.probsVal (logits i) a * (q i a).val))
  let log_prob : Fin n → TV := fun i =>
    TV.sub (TV.detach (entropy i)) { val := st.targetEntropy, rg := false }
  let alpha_loss : ℚ := mean n (fun i => st.logAlpha * (log_prob i).val)
  let alphaGrad : ℚ := mean n (fun i => (log_prob i).val)
  let newLogAlpha : ℚ :=
    if st.isAutoAlpha then st.logAlpha - E.lr * alphaGrad else st.logAlpha
  let newAlpha : ℚ := if st.isAutoAlpha then E.qexp newLogAlpha else st.alpha
  { td1 := td1
    td2 := td2
    critic1Loss := critic1_loss
    critic2Loss := critic2_loss
    entropyOut := entropy
    actorQ := q
    actorLoss := actor_loss
    alphaUsed := st.alpha
    logProb := if st.isAutoAlpha then some log_prob else none
    alphaLoss := if st.isAutoAlpha then some alpha_loss else none
    newLogAlpha := newLogAlpha
    newAlpha := newAlpha
    result :=
      [("loss/actor", actor_loss), ("loss/critic1", critic1_loss),
        ("loss/critic2", critic2_loss)]
        ++ (if st.isAutoAlpha then [("loss/alpha", alpha_loss), ("alpha", newAlpha)] else [])
    batchOut := { batch with weight := some newWeight }
    trace :=
      [Event.criticOneStep, Event.criticTwoStep, Event.actorStep]
        ++ (if st.isAutoAlpha then [Event.alphaStep] else [])
        ++ [Event.syncWeight] }

/-- The alpha loss of `learn` as a function of the `log_alpha` argument;
the loss the tuner differentiates is exactly this function evaluated at the
current `log_alpha`. -/
def alphaLossAt {Obs : Type} {A n : ℕ} (E : Ext A) (st : PolicyState Obs A)
    (batch : Batch Obs A n) (la : ℚ) : ℚ :=
  mean n (fun i => la * (E.entropyVal (st.actor (batch.obs i)) - st.targetEntropy))

/-- Swapping the two target critics of a policy state, to express symmetry
of `_target_q` in the critic pair. -/
def swapOldCritics {Obs : Type} {A : ℕ} (st : PolicyState Obs A) : PolicyState Obs A :=
  { st with critic1_old := st.critic2_old, critic2_old := st.critic1_old }

/-- Concrete external collaborators for a two-action policy, used to
evaluate the theorems on closed inputs: `entropy = logits 0 + 1` and the
stand-in exponential agrees with the real one at the probed points
(`qexp 0 = 1 = exp 0`, and `qexp` of a negative number differs from 1,
as `exp` does). -/
def E0 : Ext 2 :=
  { probsVal := fun l => l
    entropyVal := fun l => l 0 + 1
    qexp := fun x => if x < 0 then 1 / 3 else 1
    lr := 1 }

/-- Concrete policy state with auto alpha tuning on, all networks zero,
`alpha = 1 = exp 0`, `log_alpha = 0` and `target_entropy = 0`. -/
def st0 : PolicyState Unit 2 :=
  { actor := fun _ _ => 0
    critic1 := fun _ _ => 0
    critic2 := fun _ _ => 0
    critic1_old := fun _ _ => 0
    critic2_old := fun _ _ => 0
    alpha := 1
    logAlpha := 0
    targetEntropy := 0
    isAutoAlpha := true }

/-- Variant of `st0` whose target entropy equals the entropy the actor
actually produces through `E0` (both are 1). -/
def st1 : PolicyState Unit 2 := { st0 with targetEntropy := 1 }

/-- Variant of `st0` with auto alpha tuning disabled (fixed alpha). -/
def st2 : PolicyState Unit 2 := { st0 with isAutoAlpha := false }

/-- Concrete one-transition batch over `st0`. -/
def b0 : Batch Unit 2 1 :=
  { obs := fun _ => ()
    obs_next := fun _ => ()
    act := fun _ => 0
    returns := fun _ => 0
    weight := none }

/-- Concrete replay buffer for `targetQ` evaluations. -/
def buf0 : ℕ → BufferRow Unit := fun _ => { obs_next := () }

/-- Concrete index array selecting row 0. -/
def ind0 : Fin 1 → ℕ := fun _ => 0

/-- C1: `_target_q` returns, per transition, the probability-weighted
expected minimum of the two target critics plus `alpha` times the
distribution's entropy, where the distribution is built from the online
actor's logits at `obs_next` (the class has no target actor). -/
theorem target_q_formula {Obs : Type} {A n : ℕ} (E : Ext A)
    (st : PolicyState Obs A) (buffer : ℕ → BufferRow Obs)
    (indice : Fin n → ℕ) (i : Fin n) :
    targetQ E st buffer indice i =
      (∑ a, E.probsVal (st.actor ((buffer (indice i)).obs_next)) a *
          min (st.critic1_old ((buffer (indice i)).obs_next) a)
            (st.critic2_old ((buffer (indice i)).obs_next) a))
        + st.alpha * E.entropyVal (st.actor ((buffer (indice i)).obs_next)) := rfl

/-- C2: the actor loss is the negated batch mean of
`alpha * H(p(.|s)) + sum_a p_a(s) * min(Q1(s,a), Q2(s,a))`, with `p` a
freshly computed current-state distribution and `Q1`, `Q2` the online
critics; the min-Q surface enters with `requires_grad = false` (computed
under `torch.no_grad()`), so no gradient flows into the critics. -/
theorem actor_loss_formula {Obs : Type} {A n : ℕ} (E : Ext A)
    (st : PolicyState Obs A) (batch : Batch Obs A n) :
    (learn E st batch).actorLoss =
      -(mean n (fun i =>
          st.alpha * E.entropyVal (st.actor (batch.obs i))
            + ∑ a, E.probsVal (st.actor (batch.obs i)) a *
                min (st.critic1 (batch.obs i) a) (st.critic2 (batch.obs i) a)))
    ∧ ∀ (i : Fin n) (a : Fin A), ((learn E st batch).actorQ i a).rg = false :=
  ⟨rfl, fun _ _ => rfl⟩

/-- C3: each critic's loss is the batch mean of
`weight_i * (Q(s_i, a_i) - returns_i)^2`, with the gather at the executed
action index, weight defaulting to 1 when absent, and each loss built only
from its own critic's predictions. -/
theorem critic_loss_formula {Obs : Type} {A n : ℕ} (E : Ext A)
    (st : PolicyState Obs A) (batch : Batch Obs A n) :
    (learn E st batch).critic1Loss =
      mean n (fun i =>
        (match batch.weight with
          | some w => w i
          | none => 1) *
          (st.critic1 (batch.obs i) (batch.act i) - batch.returns i) ^ 2)
    ∧ (learn E st batch).critic2Loss =
      mean n (fun i =>
        (match batch.weight with
          | some w => w i
          | none => 1) *
          (st.critic2 (batch.obs i) (batch.act i) - batch.returns i) ^ 2) := by
  constructor <;>
    · show mean n _ = mean n _
      unfold mean
      congr 1
      refine Finset.sum_congr rfl fun i _ => ?_
      cases batch.weight with
      | none => simp [Option.getD]
      | some w => simp [Option.getD]; ring

/-- C4: with auto tuning on, the alpha loss is the batch mean of
`log_alpha * (H_i - target_entropy)` where `H_i` is the entropy computed in
the actor update, reused in detached form (`requires_grad = false`); when
every `H_i` equals the target entropy the loss is 0, the loss is constant
in `log_alpha` (zero gradient) and the gradient step leaves `log_alpha`
unchanged; afterwards `alpha` is recomputed as `exp(log_alpha)`. -/
theorem alpha_tuner {Obs : Type} {A n : ℕ} (E : Ext A)
    (st : PolicyState Obs A) (batch : Batch Obs A n)
    (hauto : st.isAutoAlpha = true) :
    (learn E st batch).alphaLoss =
        some (mean n (fun i =>
          st.logAlpha * (E.entropyVal (st.actor (batch.obs i)) - st.targetEntropy)))
      ∧ (learn E st batch).logProb =
        some (fun i =>
          { val := E.entropyVal (st.actor (batch.obs i)) - st.targetEntropy
            rg := false })
      ∧ ((∀ i, E.entropyVal (st.actor (batch.obs i)) = st.targetEntropy) →
          (learn E st batch).alphaLoss = some 0
            ∧ (∀ la : ℚ, alphaLossAt E st batch la = 0)
            ∧ (learn E st batch).newLogAlpha = st.logAlpha)
      ∧ (learn E st batch).newAlpha = E.qexp ((learn E st batch).newLogAlpha) := by
  refine ⟨?_, ?_, ?_, ?_⟩
  · simp [learn, hauto, TV.sub, TV.detach]
  · simp [learn, hauto, TV.sub, TV.detach]
  · intro h
    refine ⟨?_, ?_, ?_⟩
    · simp [learn, hauto, TV.sub, TV.detach, mean, h]
    · intro la
      simp [alphaLossAt, mean, h]
    · simp [learn, hauto, TV.sub, TV.detach, mean, h]
  · simp [learn, hauto]

/-- Witness for C4 at a concrete instance whose entropy matches the target
entropy: the alpha loss is exactly 0 and `log_alpha` is unchanged. -/
theorem alpha_tuner_witness :
    st1.isAutoAlpha = true
      ∧ (learn E0 st1 b0).alphaLoss = some 0
      ∧ (learn E0 st1 b0).newLogAlpha = st1.logAlpha := by
  have h := (alpha_tuner E0 st1 b0 rfl).2.2.1 (fun i => by norm_num [E0, st1, st0])
  exact ⟨rfl, h.1, h.2.2⟩

/-- C5: `learn` writes back into `batch.weight` exactly
`(td1_i + td2_i) / 2`, the average of the two critics' TD errors at the
executed action. -/
theorem priority_writeback {Obs : Type} {A n : ℕ} (E : Ext A)
    (st : PolicyState Obs A) (batch : Batch Obs A n) :
    (learn E st batch).batchOut.weight =
      some (fun i =>
        ((st.critic1 (batch.obs i) (batch.act i) - batch.returns i)
          + (st.critic2 (batch.obs i) (batch.act i) - batch.returns i)) / 2) := rfl

/-- C6 as stated is false: within one `learn` call, the actor update reads
`self._alpha` before the tuner updates `log_alpha`, so the alpha used by
the actor does not equal `exp(log_alpha)` after that step's tuner update
(here the entropy exceeds the target, the tuner moves `log_alpha` from 0 to
-1, and the actor has used `alpha = 1 = exp 0`, not `qexp (-1)`). -/
theorem alpha_staleness_counterexample :
    ¬ ((learn E0 st0 b0).alphaUsed = E0.qexp ((learn E0 st0 b0).newLogAlpha)) := by
  intro h
  have h1 : (learn E0 st0 b0).alphaUsed = 1 := rfl
  have h2 : (learn E0 st0 b0).newLogAlpha = -1 := by
    simp [learn, mean, E0, st0, b0, TV.sub, TV.detach]
  rw [h1, h2] at h
  have h3 : E0.qexp (-1) = 1 / 3 := by norm_num [E0]
  rw [h3] at h
  norm_num at h

/-- C6 amended: the actor updater reads the `alpha` stored in the policy
state at entry, i.e. `exp(log_alpha)` as of the most recent completed tuner
update (the previous step); the tuner runs after the actor update and
immediately rederives `alpha = exp(log_alpha)`, so the value is fresh for
every later read, while a fixed-alpha policy keeps `alpha` unchanged. -/
theorem alpha_read_and_refresh {Obs : Type} {A n : ℕ} (E : Ext A)
    (st : PolicyState Obs A) (batch : Batch Obs A n) :
    (learn E st batch).alphaUsed = st.alpha
      ∧ (st.isAutoAlpha = true →
          (learn E st batch).newAlpha = E.qexp ((learn E st batch).newLogAlpha))
      ∧ (st.isAutoAlpha = false → (learn E st batch).newAlpha = st.alpha) := by
  refine ⟨rfl, fun h => ?_, fun h => ?_⟩
  · simp [learn, h]
  · simp [learn, h]

/-- Witness for the amended C6 at a concrete auto-tuning instance. -/
theorem alpha_read_and_refresh_witness :
    (learn E0 st0 b0).alphaUsed = st0.alpha
      ∧ (learn E0 st0 b0).newAlpha = E0.qexp ((learn E0 st0 b0).newLogAlpha) :=
  ⟨(alpha_read_and_refresh E0 st0 b0).1,
    (alpha_read_and_refresh E0 st0 b0).2.1 rfl⟩

/-- C7: the target value is invariant under swapping the two target
critics, and for a strictly positive next-state entropy it strictly
decreases when alpha decreases. -/
theorem target_q_symm_and_mono {Obs : Type} {A n : ℕ} (E : Ext A)
    (st : PolicyState Obs A) (buffer : ℕ → BufferRow Obs)
    (indice : Fin n → ℕ) :
    (∀ i, targetQ E (swapOldCritics st) buffer indice i
        = targetQ E st buffer indice i)
      ∧ ∀ (a' : ℚ) (i : Fin n), a' < st.alpha →
          0 < E.entropyVal (st.actor ((buffer (indice i)).obs_next)) →
          targetQ E { st with alpha := a' } buffer indice i
            < targetQ E st buffer indice i := by
  constructor
  · intro i
    unfold targetQ swapOldCritics
    simp [min_comm]
  · intro a' i ha hH
    show (∑ a, E.probsVal (st.actor ((buffer (indice i)).obs_next)) a *
          min (st.critic1_old ((buffer (indice i)).obs_next) a)
            (st.critic2_old ((buffer (indice i)).obs_next) a))
          + a' * E.entropyVal (st.actor ((buffer (indice i)).obs_next))
        < (∑ a, E.probsVal (st.actor ((buffer (indice i)).obs_next)) a *
          min (st.critic1_old ((buffer (indice i)).obs_next) a)
            (st.critic2_old ((buffer (indice i)).obs_next) a))
          + st.alpha * E.entropyVal (st.actor ((buffer (indice i)).obs_next))
    exact add_lt_add_left (mul_lt_mul_of_pos_right ha hH) _

/-- Witness for C7 at a concrete instance with entropy 1 and alpha lowered
from 1 to 0. -/
theorem target_q_symm_and_mono_witness :
    (0 : ℚ) < st0.alpha
      ∧ 0 < E0.entropyVal (st0.actor ((buf0 (ind0 0)).obs_next))
      ∧ targetQ E0 { st0 with alpha := 0 } buf0 ind0 0
          < targetQ E0 st0 buf0 ind0 0 := by
  refine ⟨by norm_num [st0], by norm_num [E0, st0], ?_⟩
  exact (target_q_symm_and_mono E0 st0 buf0 ind0).2 0 0
    (by norm_num [st0]) (by norm_num [E0, st0])

/-- C8: the result mapping always carries the three loss keys; when auto
entropy tuning is enabled it carries both `loss/alpha` and `alpha`, and
when tuning is disabled it carries neither of those two keys. -/
theorem result_keys {Obs : Type} {A n : ℕ} (E : Ext A)
    (st : PolicyState Obs A) (batch : Batch Obs A n) :
    "loss/actor" ∈ (learn E st batch).result.map Prod.fst
      ∧ "loss/critic1" ∈ (learn E st batch).result.map Prod.fst
      ∧ "loss/critic2" ∈ (learn E st batch).result.map Prod.fst
      ∧ (st.isAutoAlpha = true →
          "loss/alpha" ∈ (learn E st batch).result.map Prod.fst
            ∧ "alpha" ∈ (learn E st batch).result.map Prod.fst)
      ∧ (st.isAutoAlpha = false →
          "loss/alpha" ∉ (learn E st batch).result.map Prod.fst
            ∧ "alpha" ∉ (learn E st batch).result.map Prod.fst) := by
  cases h : st.isAutoAlpha <;> simp [learn, h]

/-- Witness for C8: with tuning enabled the alpha keys are present, and at
a fixed-alpha state `loss/alpha` is absent from the result mapping. -/
theorem result_keys_witness :
    st0.isAutoAlpha = true
      ∧ "loss/alpha" ∈ (learn E0 st0 b0).result.map Prod.fst
      ∧ st2.isAutoAlpha = false
      ∧ "loss/alpha" ∉ (learn E0 st2 b0).result.map Prod.fst :=
  ⟨rfl, ((result_keys E0 st0 b0).2.2.2.1 rfl).1, rfl,
    ((result_keys E0 st2 b0).2.2.2.2 rfl).1⟩

/-- C9: the trace of external parameter updates contains `sync_weight`
exactly once, at the very end, after both critic steps, the actor step and,
when tuning is enabled, the `log_alpha` step. -/
theorem sync_weight_last {Obs : Type} {A n : ℕ} (E : Ext A)
    (st : PolicyState Obs A) (batch : Batch Obs A n) :
    (learn E st batch).trace.count Event.syncWeight = 1
      ∧ ∃ pre, (learn E st batch).trace = pre ++ [Event.syncWeight]
          ∧ Event.syncWeight ∉ pre
          ∧ Event.criticOneStep ∈ pre
          ∧ Event.criticTwoStep ∈ pre
          ∧ Event.actorStep ∈ pre
          ∧ (st.isAutoAlpha = true → Event.alphaStep ∈ pre) := by
  cases h : st.isAutoAlpha
  · refine ⟨by simp [learn, h],
      [Event.criticOneStep, Event.criticTwoStep, Event.actorStep],
      by simp [learn, h], by decide, by decide, by decide, by decide,
      fun hc => by simp [h] at hc⟩
  · exact ⟨by simp [learn, h],
      [Event.criticOneStep, Event.criticTwoStep, Event.actorStep, Event.alphaStep],
      by simp [learn, h], by decide, by decide, by decide, by decide,
      fun _ => by decide⟩

/-- Witness for C9 at a concrete auto-tuning instance, discharging the
conditional `log_alpha` conjunct. -/
theorem sync_weight_last_witness :
    (learn E0 st0 b0).trace.count Event.syncWeight = 1 ∧ st0.isAutoAlpha = true :=
  ⟨(sync_weight_last E0 st0 b0).1, rfl⟩

/-- C10: `learn` leaves `obs`, `obs_next`, `act` and `returns` unchanged
and only replaces the batch's `weight` field (any incoming weight is popped
and the field is re-set to the TD-error average). -/
theorem learn_frame {Obs : Type} {A n : ℕ} (E : Ext A)
    (st : PolicyState Obs A) (batch : Batch Obs A n) :
    (learn E st batch).batchOut.obs = batch.obs
      ∧ (learn E st batch).batchOut.obs_next = batch.obs_next
      ∧ (learn E st batch).batchOut.act = batch.act
      ∧ (learn E st batch).batchOut.returns = batch.returns
      ∧ (learn E st batch).batchOut.weight =
          some (fun i =>
            ((st.critic1 (batch.obs i) (batch.act i) - batch.returns i)
              + (st.critic2 (batch.obs i) (batch.act i) - batch.returns i)) / 2) :=
  ⟨rfl, rfl, rfl, rfl, rfl⟩

end DiscreteSAC
